import Mathlib

/-!
Verification development for the Christmas-Tree particle/gesture application.

The TypeScript source is shallowly embedded over exact rationals (ℚ) where the
code does elementary float arithmetic, and over ℝ where it uses transcendental
functions (trigonometry, cube root).  Comparisons of Euclidean distances
(for instance a `Math.hypot` result compared against a threshold or against
another `Math.hypot` result) are embedded via the equivalent comparisons of
squared distances, since both sides are nonnegative and squaring is monotone
there.  Array accesses that would throw in JavaScript (an out-of-range
`landmarks[i]` returning `undefined`, followed by a property access) are
modelled by `Option`: the handler returns `none` exactly when the JS code
would raise a `TypeError`.
-/

namespace ChristmasTree

/-- The two-valued interaction state, from `src/types.ts` (`TreeMorphState`). -/
inductive TreeMorphState where
  | SCATTERED
  | TREE_SHAPE
deriving DecidableEq, BEq

/-- The morph target chosen each frame in `Experience.tsx` line 49:
`const target = treeState === TreeMorphState.TREE_SHAPE ? 1 : 0`. -/
def morphTarget (s : TreeMorphState) : ℚ :=
  match s with
  | TreeMorphState.TREE_SHAPE => 1
  | TreeMorphState.SCATTERED => 0

/-- One tick of the global morph update, `Experience.tsx` lines 48-63:
`const step = delta * 1.5` (written `d * (3/2)` here, inlined); if below the
target move up by `step`, capped at the target with `Math.min`; if above,
symmetric with `Math.max`; otherwise unchanged. -/
def morphStep (t d m : ℚ) : ℚ :=
  if m < t then min t (m + d * (3/2))
  else if t < m then max t (m - d * (3/2))
  else m

/-- The trajectory of the global morph factor over a sequence of frames with
per-frame deltas `ds`, starting from `m0`, with a constant target `t`. -/
def morphSeq (t : ℚ) (ds : ℕ → ℚ) (m0 : ℚ) : ℕ → ℚ
  | 0 => m0
  | n + 1 => morphStep t (ds n) (morphSeq t ds m0 n)

/-- Initial interaction state, `App.tsx` line 10:
`useState<TreeMorphState>(TreeMorphState.TREE_SHAPE)`. -/
def initialTreeState : TreeMorphState := TreeMorphState.TREE_SHAPE

/-- Initial global morph factor, `Experience.tsx` line 22: `useState(0)`. -/
def initialMorph : ℚ := 0

/-- Number of ticks claimed for exact convergence: `ceil(1/(d*1.5))`. -/
def convergenceTicks (d : ℚ) : ℕ := ⌈1 / (d * (3/2))⌉₊

/-- The auto-rotate flag of `Experience.tsx` line 43:
`treeState === TreeMorphState.TREE_SHAPE && !handPosition && !isMagnified`. -/
def autoRotate (treeState : TreeMorphState) (handPosition : Option (ℚ × ℚ))
    (isMagnified : Bool) : Bool :=
  (treeState == TreeMorphState.TREE_SHAPE) && handPosition.isNone && !isMagnified

/-- Linear interpolation, `THREE.MathUtils.lerp(x, y, t) = (1 - t) * x + t * y`.
The same formula also describes `THREE.Vector3.lerp(v, alpha)`, which sets each
coordinate to `x + (v.x - x) * alpha`. -/
def lerp (x y t : ℚ) : ℚ := (1 - t) * x + t * y

/-- The per-entity smoothing coefficient of the ornament update, `part_000`
lines 107 and 122: `dt = delta * 1.5; lerpSpeed = dt * item.speed`.  Note
there is no clamping of `lerpSpeed`. -/
def ornamentLerpSpeed (delta speed : ℚ) : ℚ := delta * (3/2) * speed

/-- One coordinate of the ornament position update (`updateMesh`, `part_000`
lines 124-127): `current = lerp(current, target, lerpSpeed)`. -/
def updateOrnamentAxis (current target delta speed : ℚ) : ℚ :=
  lerp current target (ornamentLerpSpeed delta speed)

/-- The per-photo smoothing coefficient, `Photos.tsx` line 81:
`moveSpeed = delta * (isMagnified ? 5.0 : 2.0 * data.speed)`.  Again not
clamped. -/
def photoMoveSpeed (delta speed : ℚ) (isMagnified : Bool) : ℚ :=
  delta * (if isMagnified then 5 else 2 * speed)

/-- One coordinate of the photo position update, `Photos.tsx` line 83:
`currentPos.lerp(target, moveSpeed)`, that is
`current + (target - current) * moveSpeed`. -/
def updatePhotoAxis (current target delta speed : ℚ) (isMagnified : Bool) : ℚ :=
  current + (target - current) * photoMoveSpeed delta speed isMagnified

/-- Modelled from the spec: the update formula claimed by the specification
for the individually-lagged groups, with the smoothing coefficient clamped by
`min(1, tickDeltaSeconds * arrivalRate * globalSpeedMultiplier)`.  Written
from the spec text for comparison with `updateOrnamentAxis`; it is not what
the source computes. -/
def specClampedUpdate (current target delta speed : ℚ) : ℚ :=
  current + (target - current) * min 1 (delta * (3/2) * speed)

/-- A normalized 2D hand landmark (only `x` and `y` are read by the code). -/
structure Landmark where
  x : ℚ
  y : ℚ
deriving DecidableEq

/-- The gesture labels emitted by `GestureController` (`part_000`): `CATCH`
is the pinch label, `FORM` the fist label, `UNLEASH` the open-hand label,
`TRACKING` the dead-zone label, and `NO_HAND` the no-hand label. -/
inductive GestureLabel where
  | CATCH
  | FORM
  | UNLEASH
  | TRACKING
  | NO_HAND
deriving DecidableEq

/-- The per-tick effect of one `onResults` callback: the displayed label, the
`onMagnify` argument, the interaction state after the tick (the previous state
when `onStateChange` is not called), and the `onHandMove` argument. -/
structure GestureOutput where
  label : GestureLabel
  magnify : Bool
  state : TreeMorphState
  handOffset : Option (ℚ × ℚ)
deriving DecidableEq

/-- Squared Euclidean distance between two landmarks. -/
def distSq (a b : Landmark) : ℚ := (a.x - b.x) ^ 2 + (a.y - b.y) ^ 2

/-- The finger-open test of `part_000` lines 273-277: the finger counts as
open when its tip is strictly farther from the wrist (`landmarks[0]`) than the
given proximal joint.  The result is `none` when a required landmark is
missing. -/
def isFingerOpen (lm : List Landmark) (tipIdx pipIdx : ℕ) : Option Bool := do
  let wrist ← lm.get? 0
  let tip ← lm.get? tipIdx
  let pip ← lm.get? pipIdx
  pure (decide (distSq pip wrist < distSq tip wrist))

/-- The open-finger count of `part_000` lines 279-285: index (8,6),
middle (12,10), ring (16,14), pinky (20,18), thumb (4,2), counted with
`filter(Boolean).length`. -/
def openCountOf (lm : List Landmark) : Option ℕ := do
  let indexOpen ← isFingerOpen lm 8 6
  let middleOpen ← isFingerOpen lm 12 10
  let ringOpen ← isFingerOpen lm 16 14
  let pinkyOpen ← isFingerOpen lm 20 18
  let thumbOpen ← isFingerOpen lm 4 2
  pure ([indexOpen, middleOpen, ringOpen, pinkyOpen, thumbOpen].count true)

/-- The squared pinch distance of `part_000` lines 288-290: thumb tip
(`landmarks[4]`) to index tip (`landmarks[8]`). -/
def pinchDistSq (lm : List Landmark) : Option ℚ := do
  let thumbTip ← lm.get? 4
  let indexTip ← lm.get? 8
  pure (distSq thumbTip indexTip)

/-- The hand offset of `part_000` lines 314-319, from the middle-finger MCP
(`landmarks[9]`): `x = (1 - p.x - 0.5) * 2`, `y = (p.y - 0.5) * 2`. -/
def handOffsetOf (lm : List Landmark) : Option (ℚ × ℚ) := do
  let p ← lm.get? 9
  pure ((1 - p.x - 1/2) * 2, (p.y - 1/2) * 2)

/-- One `onResults` tick of `part_000` lines 250-325, given the landmark list
of the first detected hand (`none` when `multiHandLandmarks` is absent) and
the interaction state before the tick.  The pinch test `pinchDist < 0.05`
becomes `pinchDistSq < 1/400`.  A present sample missing a required landmark
makes the JS handler throw before any callback runs; this is modelled by the
`none` result.  All required indices exist exactly when the list has the full
21 landmarks, so combining the three lookups in one match agrees with the
sequential evaluation order of the source. -/
def onResults (sample : Option (List Landmark)) (prev : TreeMorphState) :
    Option GestureOutput :=
  match sample with
  | none => some ⟨GestureLabel.NO_HAND, false, prev, none⟩
  | some lm =>
    if lm.length = 0 then some ⟨GestureLabel.NO_HAND, false, prev, none⟩
    else
      match openCountOf lm, pinchDistSq lm, handOffsetOf lm with
      | some openCount, some pd, some off =>
        if pd < 1/400 then
          some ⟨GestureLabel.CATCH, true, prev, some off⟩
        else if openCount ≤ 1 then
          some ⟨GestureLabel.FORM, false, TreeMorphState.TREE_SHAPE, some off⟩
        else if 4 ≤ openCount then
          some ⟨GestureLabel.UNLEASH, false, TreeMorphState.SCATTERED, some off⟩
        else
          some ⟨GestureLabel.TRACKING, false, prev, some off⟩
      | _, _, _ => none

/-- Concrete 21-landmark sample: thumb tip and index tip 0.03 apart (squared
distance 9/10000) while all five fingers are open. -/
def pinchAllOpenSample : List Landmark :=
  [⟨0, 0⟩, ⟨0, 0⟩, ⟨1/10, 0⟩, ⟨0, 0⟩, ⟨1, 0⟩, ⟨0, 0⟩, ⟨1/10, 0⟩, ⟨0, 0⟩,
   ⟨1, 3/100⟩, ⟨1/2, 1/2⟩, ⟨0, 1/10⟩, ⟨0, 0⟩, ⟨0, 1⟩, ⟨0, 0⟩, ⟨-1/10, 0⟩,
   ⟨0, 0⟩, ⟨-1, 0⟩, ⟨0, 0⟩, ⟨0, -1/10⟩, ⟨0, 0⟩, ⟨0, -1⟩]

/-- Concrete 21-landmark sample: all five fingers open, thumb tip far from
index tip (no pinch). -/
def openHandSample : List Landmark :=
  [⟨0, 0⟩, ⟨0, 0⟩, ⟨1/10, 0⟩, ⟨0, 0⟩, ⟨-1, -1⟩, ⟨0, 0⟩, ⟨1/10, 0⟩, ⟨0, 0⟩,
   ⟨1, 3/100⟩, ⟨1/2, 1/2⟩, ⟨0, 1/10⟩, ⟨0, 0⟩, ⟨0, 1⟩, ⟨0, 0⟩, ⟨-1/10, 0⟩,
   ⟨0, 0⟩, ⟨-1, 0⟩, ⟨0, 0⟩, ⟨0, -1/10⟩, ⟨0, 0⟩, ⟨0, -1⟩]

/-- Concrete 21-landmark sample: all five fingers curled (fist), no pinch. -/
def fistSample : List Landmark :=
  [⟨0, 0⟩, ⟨0, 0⟩, ⟨1, 0⟩, ⟨0, 0⟩, ⟨1/10, 0⟩, ⟨0, 0⟩, ⟨0, 1⟩, ⟨0, 0⟩,
   ⟨0, 1/10⟩, ⟨1/2, 1/2⟩, ⟨1, 1⟩, ⟨0, 0⟩, ⟨0, 0⟩, ⟨0, 0⟩, ⟨1, 0⟩,
   ⟨0, 0⟩, ⟨0, 0⟩, ⟨0, 0⟩, ⟨0, 1⟩, ⟨0, 0⟩, ⟨0, 0⟩]

/-- Concrete 21-landmark sample: exactly two fingers open (index and middle),
no pinch. -/
def trackingSample : List Landmark :=
  [⟨0, 0⟩, ⟨0, 0⟩, ⟨1, 0⟩, ⟨0, 0⟩, ⟨1/10, 0⟩, ⟨0, 0⟩, ⟨0, 1/10⟩, ⟨0, 0⟩,
   ⟨0, 1⟩, ⟨1/2, 1/2⟩, ⟨1/10, 0⟩, ⟨0, 0⟩, ⟨1, 0⟩, ⟨0, 0⟩, ⟨0, 1⟩,
   ⟨0, 0⟩, ⟨0, 0⟩, ⟨0, 0⟩, ⟨1, 0⟩, ⟨0, 0⟩, ⟨0, 0⟩]

/-- Angle `theta = 2 * Math.PI * u` of `getRandomSpherePoint`
(`src/utils/math.ts` line 7). -/
noncomputable def sphereTheta (u : ℝ) : ℝ := 2 * Real.pi * u

/-- Angle `phi = Math.acos(2 * v - 1)` of `getRandomSpherePoint`
(`src/utils/math.ts` line 8). -/
noncomputable def spherePhi (v : ℝ) : ℝ := Real.arccos (2 * v - 1)

/-- Radial coordinate `r = Math.cbrt(w) * radius` of `getRandomSpherePoint`
(`src/utils/math.ts` line 9); the cube root of the draw `w ∈ [0,1)` is
embedded as the real power `w ^ (1/3)`. -/
noncomputable def sphereR (radius w : ℝ) : ℝ := w ^ ((1:ℝ)/3) * radius

/-- The sphere sampler `getRandomSpherePoint` of `src/utils/math.ts` lines
4-16, as a function of its three uniform draws `u`, `v`, `w` (the three
`Math.random()` calls, in source order):
`[r * sinPhi * cos(theta), r * sinPhi * sin(theta), r * cos(phi)]`. -/
noncomputable def getRandomSpherePoint (radius u v w : ℝ) : ℝ × ℝ × ℝ :=
  (sphereR radius w * Real.sin (spherePhi v) * Real.cos (sphereTheta u),
   sphereR radius w * Real.sin (spherePhi v) * Real.sin (sphereTheta u),
   sphereR radius w * Real.cos (spherePhi v))

-- Basic one-step facts about `morphStep`.

lemma morphStep_between (t d m : ℚ) (hd : 0 ≤ d) :
    min m t ≤ morphStep t d m ∧ morphStep t d m ≤ max m t := by
  have hstep : 0 ≤ d * (3/2) := by positivity
  unfold morphStep
  split_ifs with h1 h2
  · constructor
    · exact le_trans (min_le_left m t) (le_min h1.le (by linarith))
    · exact le_trans (min_le_left t (m + d * (3/2))) (le_max_right m t)
  · constructor
    · exact le_trans (min_le_right m t) (le_max_left t (m - d * (3/2)))
    · exact max_le (le_trans h2.le (le_max_left m t))
        (le_trans (by linarith) (le_max_left m t))
  · exact ⟨min_le_left m t, le_max_left m t⟩

lemma abs_sub_le_of_between (t m x : ℚ) (h1 : min m t ≤ x) (h2 : x ≤ max m t) :
    |t - x| ≤ |t - m| := by
  rcases le_total m t with h | h
  · rw [min_eq_left h] at h1
    rw [max_eq_right h] at h2
    rw [abs_of_nonneg (by linarith), abs_of_nonneg (by linarith)]
    linarith
  · rw [min_eq_right h] at h1
    rw [max_eq_left h] at h2
    rw [abs_of_nonpos (by linarith), abs_of_nonpos (by linarith)]
    linarith

lemma morphSeq_le_target (t m0 : ℚ) (ds : ℕ → ℚ) (hds : ∀ n, 0 ≤ ds n)
    (h : m0 ≤ t) : ∀ n, morphSeq t ds m0 n ≤ t := by
  intro n
  induction n with
  | zero => exact h
  | succ k ih =>
    have hb := morphStep_between t (ds k) (morphSeq t ds m0 k) (hds k)
    calc morphSeq t ds m0 (k + 1) ≤ max (morphSeq t ds m0 k) t := hb.2
    _ = t := max_eq_right ih

lemma morphSeq_target_le (t m0 : ℚ) (ds : ℕ → ℚ) (hds : ∀ n, 0 ≤ ds n)
    (h : t ≤ m0) : ∀ n, t ≤ morphSeq t ds m0 n := by
  intro n
  induction n with
  | zero => exact h
  | succ k ih =>
    have hb := morphStep_between t (ds k) (morphSeq t ds m0 k) (hds k)
    calc t = min (morphSeq t ds m0 k) t := (min_eq_right ih).symm
    _ ≤ morphSeq t ds m0 (k + 1) := hb.1

/-- C1: over any tick sequence with nonnegative deltas, the global morph
factor of `Experience.tsx` stays in [0,1], each tick keeps it between the
previous value and the target (no overshoot), its distance to the target never
increases, and for a constant target the trajectory is monotone (increasing
when starting below the target, decreasing when starting above). -/
theorem morph_factor_invariant (t m0 : ℚ) (ds : ℕ → ℚ)
    (ht : t = 0 ∨ t = 1) (hm0 : 0 ≤ m0) (hm1 : m0 ≤ 1) (hds : ∀ n, 0 ≤ ds n) :
    (∀ n, 0 ≤ morphSeq t ds m0 n ∧ morphSeq t ds m0 n ≤ 1) ∧
    (∀ n, min (morphSeq t ds m0 n) t ≤ morphSeq t ds m0 (n + 1) ∧
      morphSeq t ds m0 (n + 1) ≤ max (morphSeq t ds m0 n) t) ∧
    (∀ n, |t - morphSeq t ds m0 (n + 1)| ≤ |t - morphSeq t ds m0 n|) ∧
    (m0 ≤ t → Monotone (morphSeq t ds m0)) ∧
    (t ≤ m0 → Antitone (morphSeq t ds m0)) := by
  have ht0 : 0 ≤ t := by rcases ht with rfl | rfl <;> norm_num
  have ht1 : t ≤ 1 := by rcases ht with rfl | rfl <;> norm_num
  have hbetween : ∀ n, min (morphSeq t ds m0 n) t ≤ morphSeq t ds m0 (n + 1) ∧
      morphSeq t ds m0 (n + 1) ≤ max (morphSeq t ds m0 n) t :=
    fun n => morphStep_between t (ds n) (morphSeq t ds m0 n) (hds n)
  refine ⟨?_, hbetween, ?_, ?_, ?_⟩
  · intro n
    induction n with
    | zero => exact ⟨hm0, hm1⟩
    | succ k ih =>
      exact ⟨le_trans (le_min ih.1 ht0) (hbetween k).1,
        le_trans (hbetween k).2 (max_le ih.2 ht1)⟩
  · intro n
    exact abs_sub_le_of_between t _ _ (hbetween n).1 (hbetween n).2
  · intro hle
    apply monotone_nat_of_le_succ
    intro n
    have h1 := morphSeq_le_target t m0 ds hds hle n
    calc morphSeq t ds m0 n = min (morphSeq t ds m0 n) t := (min_eq_left h1).symm
    _ ≤ morphSeq t ds m0 (n + 1) := (hbetween n).1
  · intro hle
    apply antitone_nat_of_succ_le
    intro n
    have h1 := morphSeq_target_le t m0 ds hds hle n
    calc morphSeq t ds m0 (n + 1) ≤ max (morphSeq t ds m0 n) t := (hbetween n).2
    _ = morphSeq t ds m0 n := max_eq_left h1

/-- Witness for C1 at the concrete run `t = 1`, `m0 = 0`, constant delta 1/2. -/
theorem morph_factor_invariant_witness :
    (0 ≤ morphSeq 1 (fun _ => (1:ℚ)/2) 0 3 ∧ morphSeq 1 (fun _ => (1:ℚ)/2) 0 3 ≤ 1) ∧
    |(1:ℚ) - morphSeq 1 (fun _ => (1:ℚ)/2) 0 1| ≤ |(1:ℚ) - morphSeq 1 (fun _ => (1:ℚ)/2) 0 0| ∧
    Monotone (morphSeq 1 (fun _ => (1:ℚ)/2) 0) :=
  have h := morph_factor_invariant 1 0 (fun _ => (1:ℚ)/2) (Or.inr rfl)
    (by norm_num) (by norm_num) (fun _ => by norm_num)
  ⟨h.1 3, h.2.2.1 0, h.2.2.2.1 (by norm_num)⟩

lemma morphSeq_const_one_formula (d : ℚ) (hd : 0 < d) (n : ℕ) :
    morphSeq 1 (fun _ => d) 0 n = min 1 ((n : ℚ) * (d * (3/2))) := by
  have hs : 0 < d * (3/2) := by positivity
  induction n with
  | zero => norm_num [morphSeq]
  | succ k ih =>
    have hstep : morphSeq 1 (fun _ => d) 0 (k + 1)
        = morphStep 1 d (morphSeq 1 (fun _ => d) 0 k) := rfl
    rw [hstep, ih]
    unfold morphStep
    rcases lt_or_le ((k : ℚ) * (d * (3/2))) 1 with h | h
    · rw [min_eq_right h.le, if_pos h]
      have harith : (k : ℚ) * (d * (3/2)) + d * (3/2) = ((k : ℚ) + 1) * (d * (3/2)) := by
        ring
      rw [harith]
      push_cast
      ring_nf
    · rw [min_eq_left h, if_neg (lt_irrefl 1), if_neg (lt_irrefl 1)]
      have hk1 : (1:ℚ) ≤ ((k : ℚ) + 1) * (d * (3/2)) := by nlinarith
      rw [eq_comm, min_eq_left]
      push_cast
      linarith

/-- C2: starting from morph factor 0 with constant target 1 and a fixed
positive delta `d`, after exactly `ceil(1/(d*1.5))` ticks the factor equals
exactly 1, and on every earlier tick it is still strictly below 1. -/
theorem morph_converges_in_ceil_ticks (d : ℚ) (hd : 0 < d) :
    morphSeq 1 (fun _ => d) 0 (convergenceTicks d) = 1 ∧
    ∀ k < convergenceTicks d, morphSeq 1 (fun _ => d) 0 k < 1 := by
  have hs : 0 < d * (3/2) := by positivity
  constructor
  · rw [morphSeq_const_one_formula d hd]
    have h1 : 1 / (d * (3/2)) ≤ (convergenceTicks d : ℚ) := Nat.le_ceil _
    have h2 : (1:ℚ) ≤ (convergenceTicks d : ℚ) * (d * (3/2)) := by
      rw [div_le_iff₀ hs] at h1
      linarith
    exact min_eq_left h2
  · intro k hk
    rw [morphSeq_const_one_formula d hd]
    have hk1 : (k : ℚ) < 1 / (d * (3/2)) := Nat.lt_ceil.mp hk
    have hk2 : (k : ℚ) * (d * (3/2)) < 1 := by
      rw [lt_div_iff₀ hs] at hk1
      linarith
    exact lt_of_le_of_lt (min_le_right _ _) hk2

/-- Witness for C2 at `d = 1/3`: `ceil(1/(1/3 * 1.5)) = 2` ticks. -/
theorem morph_converges_in_ceil_ticks_witness :
    morphSeq 1 (fun _ => (1:ℚ)/3) 0 (convergenceTicks ((1:ℚ)/3)) = 1 ∧
    ∀ k < convergenceTicks ((1:ℚ)/3), morphSeq 1 (fun _ => (1:ℚ)/3) 0 k < 1 :=
  morph_converges_in_ceil_ticks ((1:ℚ)/3) (by norm_num)

/-- C10: at startup the interaction state is `TREE_SHAPE` while the morph
factor is 0, so the target is 1 and, on every subsequent tick with a positive
delta, the factor strictly increases until it reaches 1 (never exceeding 1). -/
theorem startup_forms_tree :
    initialTreeState = TreeMorphState.TREE_SHAPE ∧ initialMorph = 0 ∧
    morphTarget initialTreeState = 1 ∧
    ∀ ds : ℕ → ℚ, (∀ n, 0 < ds n) → ∀ n,
      morphSeq (morphTarget initialTreeState) ds initialMorph n < 1 →
      morphSeq (morphTarget initialTreeState) ds initialMorph n <
        morphSeq (morphTarget initialTreeState) ds initialMorph (n + 1) ∧
      morphSeq (morphTarget initialTreeState) ds initialMorph (n + 1) ≤ 1 := by
  refine ⟨rfl, rfl, rfl, ?_⟩
  intro ds hds n hlt
  have key : ∀ m : ℚ, m < 1 → m < morphStep 1 (ds n) m ∧ morphStep 1 (ds n) m ≤ 1 := by
    intro m hm
    have hstep : 0 < ds n * (3/2) := by
      have := hds n
      positivity
    unfold morphStep
    rw [if_pos hm]
    exact ⟨lt_min hm (by linarith), min_le_left _ _⟩
  exact key _ hlt

/-- Witness for C10: one tick of size 1/2 from the initial configuration. -/
theorem startup_forms_tree_witness :
    morphSeq (morphTarget initialTreeState) (fun _ => (1:ℚ)/2) initialMorph 0 <
      morphSeq (morphTarget initialTreeState) (fun _ => (1:ℚ)/2) initialMorph 1 ∧
    morphSeq (morphTarget initialTreeState) (fun _ => (1:ℚ)/2) initialMorph 1 ≤ 1 :=
  startup_forms_tree.2.2.2 (fun _ => (1:ℚ)/2) (fun _ => by norm_num) 0
    (by norm_num [morphSeq, initialMorph])

lemma openCountOf_length_ne_zero {lm : List Landmark} {n : ℕ}
    (h : openCountOf lm = some n) : lm.length ≠ 0 := by
  intro hlen
  rw [List.length_eq_zero.mp hlen] at h
  exact Option.noConfusion h

lemma onResults_eval (lm : List Landmark) (prev : TreeMorphState)
    (n : ℕ) (q : ℚ) (off : ℚ × ℚ)
    (hn : openCountOf lm = some n) (hq : pinchDistSq lm = some q)
    (hoff : handOffsetOf lm = some off) :
    onResults (some lm) prev =
      if q < 1/400 then some ⟨GestureLabel.CATCH, true, prev, some off⟩
      else if n ≤ 1 then
        some ⟨GestureLabel.FORM, false, TreeMorphState.TREE_SHAPE, some off⟩
      else if 4 ≤ n then
        some ⟨GestureLabel.UNLEASH, false, TreeMorphState.SCATTERED, some off⟩
      else some ⟨GestureLabel.TRACKING, false, prev, some off⟩ := by
  have hne := openCountOf_length_ne_zero hn
  simp [onResults, hne, hn, hq, hoff]

/-- C4: on a sample with a hand present and squared pinch distance below
`0.05^2 = 1/400`, the classifier outputs the pinch label `CATCH` with
`magnify = true` and leaves the interaction state unchanged, regardless of the
open-finger count. -/
theorem pinch_preempts_open (lm : List Landmark) (prev : TreeMorphState)
    (n : ℕ) (q : ℚ) (off : ℚ × ℚ)
    (hn : openCountOf lm = some n) (hq : pinchDistSq lm = some q)
    (hoff : handOffsetOf lm = some off) (hlt : q < 1/400) :
    onResults (some lm) prev = some ⟨GestureLabel.CATCH, true, prev, some off⟩ := by
  rw [onResults_eval lm prev n q off hn hq hoff, if_pos hlt]

/-- Witness for C4: pinch distance 0.03 with all five fingers open still
yields the pinch label, not the open-hand label, and the state is frozen. -/
theorem pinch_preempts_open_witness :
    openCountOf pinchAllOpenSample = some 5 ∧
    onResults (some pinchAllOpenSample) TreeMorphState.SCATTERED
      = some ⟨GestureLabel.CATCH, true, TreeMorphState.SCATTERED, some (0, 0)⟩ :=
  ⟨by norm_num [openCountOf, isFingerOpen, pinchAllOpenSample, distSq, List.get?,
      List.count],
    pinch_preempts_open pinchAllOpenSample TreeMorphState.SCATTERED 5 (9/10000)
      (0, 0)
      (by norm_num [openCountOf, isFingerOpen, pinchAllOpenSample, distSq,
        List.get?, List.count])
      (by norm_num [pinchDistSq, pinchAllOpenSample, distSq, List.get?])
      (by norm_num [handOffsetOf, pinchAllOpenSample, List.get?])
      (by norm_num)⟩

/-- C5: on a sample with a hand present and squared pinch distance at least
`1/400`, the classifier sets `magnify = false` and maps an open-finger count
of at most 1 to state `TREE_SHAPE` (formed), a count of at least 4 to state
`SCATTERED`, and a count of 2 or 3 to the `TRACKING` label with the state
unchanged. -/
theorem open_fist_classification (lm : List Landmark) (prev : TreeMorphState)
    (n : ℕ) (q : ℚ) (off : ℚ × ℚ)
    (hn : openCountOf lm = some n) (hq : pinchDistSq lm = some q)
    (hoff : handOffsetOf lm = some off) (hge : 1/400 ≤ q) :
    (n ≤ 1 → onResults (some lm) prev
      = some ⟨GestureLabel.FORM, false, TreeMorphState.TREE_SHAPE, some off⟩) ∧
    (4 ≤ n → onResults (some lm) prev
      = some ⟨GestureLabel.UNLEASH, false, TreeMorphState.SCATTERED, some off⟩) ∧
    (n = 2 ∨ n = 3 → onResults (some lm) prev
      = some ⟨GestureLabel.TRACKING, false, prev, some off⟩) := by
  have hnlt : ¬ q < 1/400 := not_lt.mpr hge
  have heval := onResults_eval lm prev n q off hn hq hoff
  refine ⟨fun h1 => ?_, fun h4 => ?_, fun h23 => ?_⟩
  · rw [heval, if_neg hnlt, if_pos h1]
  · have h1 : ¬ n ≤ 1 := by omega
    rw [heval, if_neg hnlt, if_neg h1, if_pos h4]
  · have h1 : ¬ n ≤ 1 := by omega
    have h4 : ¬ 4 ≤ n := by omega
    rw [heval, if_neg hnlt, if_neg h1, if_neg h4]

/-- Witness for C5: a fist sample forms the tree, an open-hand sample
scatters it, and a two-finger sample only tracks. -/
theorem open_fist_classification_witness :
    onResults (some fistSample) TreeMorphState.SCATTERED
      = some ⟨GestureLabel.FORM, false, TreeMorphState.TREE_SHAPE, some (0, 0)⟩ ∧
    onResults (some openHandSample) TreeMorphState.TREE_SHAPE
      = some ⟨GestureLabel.UNLEASH, false, TreeMorphState.SCATTERED, some (0, 0)⟩ ∧
    onResults (some trackingSample) TreeMorphState.TREE_SHAPE
      = some ⟨GestureLabel.TRACKING, false, TreeMorphState.TREE_SHAPE, some (0, 0)⟩ :=
  ⟨(open_fist_classification fistSample TreeMorphState.SCATTERED 0 (1/50) (0, 0)
      (by norm_num [openCountOf, isFingerOpen, fistSample, distSq, List.get?,
        List.count])
      (by norm_num [pinchDistSq, fistSample, distSq, List.get?])
      (by norm_num [handOffsetOf, fistSample, List.get?])
      (by norm_num)).1 (by norm_num),
   (open_fist_classification openHandSample TreeMorphState.TREE_SHAPE 5
      (50609/10000) (0, 0)
      (by norm_num [openCountOf, isFingerOpen, openHandSample, distSq, List.get?,
        List.count])
      (by norm_num [pinchDistSq, openHandSample, distSq, List.get?])
      (by norm_num [handOffsetOf, openHandSample, List.get?])
      (by norm_num)).2.1 (by norm_num),
   (open_fist_classification trackingSample TreeMorphState.TREE_SHAPE 2
      (101/100) (0, 0)
      (by norm_num [openCountOf, isFingerOpen, trackingSample, distSq, List.get?,
        List.count])
      (by norm_num [pinchDistSq, trackingSample, distSq, List.get?])
      (by norm_num [handOffsetOf, trackingSample, List.get?])
      (by norm_num)).2.2 (Or.inl rfl)⟩

/-- C6: on a tick without a detected hand (no landmark list, or an empty
one), the classifier reports no hand offset and `magnify = false`, and the
interaction state after the tick equals the state before it. -/
theorem no_hand_freezes_state (prev : TreeMorphState) :
    onResults none prev = some ⟨GestureLabel.NO_HAND, false, prev, none⟩ ∧
    onResults (some []) prev = some ⟨GestureLabel.NO_HAND, false, prev, none⟩ :=
  ⟨rfl, rfl⟩

/-- Counterexample to C7: a present sample with only a wrist landmark does
not behave like the no-hand case — the handler fails (the JS code throws a
`TypeError`, modelled by `none`) instead of producing the frozen no-hand
output. -/
theorem missing_joints_counterexample :
    onResults (some [⟨0, 0⟩]) TreeMorphState.TREE_SHAPE = none ∧
    onResults none TreeMorphState.TREE_SHAPE
      = some ⟨GestureLabel.NO_HAND, false, TreeMorphState.TREE_SHAPE, none⟩ ∧
    onResults (some [⟨0, 0⟩]) TreeMorphState.TREE_SHAPE
      ≠ onResults none TreeMorphState.TREE_SHAPE := by
  have h1 : onResults (some [⟨0, 0⟩]) TreeMorphState.TREE_SHAPE = none := by
    norm_num [onResults, openCountOf, isFingerOpen, pinchDistSq, handOffsetOf,
      List.get?]
  refine ⟨h1, rfl, ?_⟩
  rw [h1]
  simp [onResults]

/-- C7 as amended: a present landmark sample missing required joints (fewer
than the full 21 landmarks) makes the handler fail before any callback runs
(modelled by the `none` result), rather than falling back to the no-hand
behavior. -/
theorem missing_joints_error (lm : List Landmark) (prev : TreeMorphState)
    (hlen : lm.length < 21) (hne : lm.length ≠ 0) :
    onResults (some lm) prev = none := by
  have h20 : lm[20]? = none := by
    rw [List.getElem?_eq_none_iff]
    omega
  have hpinky : isFingerOpen lm 20 18 = none := by
    rcases h0 : lm[0]? with _ | w
    · simp [isFingerOpen, h0]
    · simp [isFingerOpen, h0, h20]
  have hoc : openCountOf lm = none := by
    rcases hi : isFingerOpen lm 8 6 with _ | a
    · simp [openCountOf, hi]
    · rcases hm : isFingerOpen lm 12 10 with _ | b
      · simp [openCountOf, hi, hm]
      · rcases hr : isFingerOpen lm 16 14 with _ | c
        · simp [openCountOf, hi, hm, hr]
        · simp [openCountOf, hi, hm, hr, hpinky]
  rcases hq : pinchDistSq lm with _ | q <;>
    rcases hoffv : handOffsetOf lm with _ | off <;>
    simp [onResults, hne, hoc, hq, hoffv]

/-- Witness for the amended C7 at a one-landmark sample. -/
theorem missing_joints_error_witness :
    onResults (some [⟨0, 0⟩]) TreeMorphState.SCATTERED = none :=
  missing_joints_error [⟨0, 0⟩] TreeMorphState.SCATTERED (by decide) (by decide)

/-- C8: the camera auto-rotate flag is true exactly when the interaction
state is `TREE_SHAPE` (formed), no hand position is present, and magnify is
off; any other combination disables it. -/
theorem auto_rotate_iff (s : TreeMorphState) (h : Option (ℚ × ℚ)) (m : Bool) :
    autoRotate s h m = true ↔
      s = TreeMorphState.TREE_SHAPE ∧ h = none ∧ m = false := by
  cases s <;> rcases h with _ | p <;> cases m <;> simp [autoRotate] <;> rfl

lemma lerp_between (c t a : ℚ) (h0 : 0 ≤ a) (h1 : a ≤ 1) :
    min c t ≤ lerp c t a ∧ lerp c t a ≤ max c t := by
  have key : lerp c t a = c + a * (t - c) := by
    unfold lerp
    ring
  rcases le_total c t with h | h
  · rw [min_eq_left h, max_eq_right h, key]
    constructor
    · nlinarith [mul_nonneg h0 (sub_nonneg.mpr h)]
    · nlinarith [mul_nonneg (sub_nonneg.mpr h1) (sub_nonneg.mpr h)]
  · rw [min_eq_right h, max_eq_left h, key]
    constructor
    · nlinarith [mul_nonneg (sub_nonneg.mpr h1) (sub_nonneg.mpr h)]
    · nlinarith [mul_nonneg h0 (sub_nonneg.mpr h)]

/-- Counterexample to C3: the source does not clamp the smoothing coefficient
with `min(1, ...)`.  With current position 0, target 1, `delta = 1` and
`speed = 2` the coefficient is 3 and the ornament update lands at 3 —
overshooting past the target — while the clamped update of the spec text
would land exactly on the target. -/
theorem ornament_update_counterexample :
    updateOrnamentAxis 0 1 1 2 = 3 ∧
    specClampedUpdate 0 1 1 2 = 1 ∧
    ¬ updateOrnamentAxis 0 1 1 2 ≤ max (0:ℚ) 1 ∧
    updateOrnamentAxis 0 1 1 2 ≠ specClampedUpdate 0 1 1 2 := by
  refine ⟨?_, ?_, ?_, ?_⟩ <;>
    norm_num [updateOrnamentAxis, lerp, ornamentLerpSpeed, specClampedUpdate]

/-- C3 as amended: the lagged groups update with the unclamped coefficients
`delta * 1.5 * speed` (ornaments) and `delta * (5 or 2 * speed)` (photos); on
ticks where those coefficients lie in [0,1] the new displayed position lies
between the old position and the target, but nothing prevents the coefficient
from exceeding 1 on a stalled frame. -/
theorem lagged_update_no_overshoot (c t d s : ℚ) (mag : Bool)
    (h0o : 0 ≤ ornamentLerpSpeed d s) (h1o : ornamentLerpSpeed d s ≤ 1)
    (h0p : 0 ≤ photoMoveSpeed d s mag) (h1p : photoMoveSpeed d s mag ≤ 1) :
    updateOrnamentAxis c t d s = c + (t - c) * ornamentLerpSpeed d s ∧
    min c t ≤ updateOrnamentAxis c t d s ∧
    updateOrnamentAxis c t d s ≤ max c t ∧
    min c t ≤ updatePhotoAxis c t d s mag ∧
    updatePhotoAxis c t d s mag ≤ max c t := by
  have ho := lerp_between c t (ornamentLerpSpeed d s) h0o h1o
  have hp := lerp_between c t (photoMoveSpeed d s mag) h0p h1p
  have hpe : updatePhotoAxis c t d s mag = lerp c t (photoMoveSpeed d s mag) := by
    unfold updatePhotoAxis lerp
    ring
  refine ⟨?_, ho.1, ho.2, ?_, ?_⟩
  · unfold updateOrnamentAxis lerp
    ring
  · rw [hpe]
    exact hp.1
  · rw [hpe]
    exact hp.2

/-- Witness for the amended C3 at `c = 0`, `t = 1`, `delta = 1/10`,
`speed = 1`, not magnified. -/
theorem lagged_update_no_overshoot_witness :
    updateOrnamentAxis 0 1 (1/10) 1 = 0 + (1 - 0) * ornamentLerpSpeed (1/10) 1 ∧
    min (0:ℚ) 1 ≤ updateOrnamentAxis 0 1 (1/10) 1 ∧
    updateOrnamentAxis 0 1 (1/10) 1 ≤ max (0:ℚ) 1 ∧
    min (0:ℚ) 1 ≤ updatePhotoAxis 0 1 (1/10) 1 false ∧
    updatePhotoAxis 0 1 (1/10) 1 false ≤ max (0:ℚ) 1 :=
  lagged_update_no_overshoot 0 1 (1/10) 1 false
    (by norm_num [ornamentLerpSpeed]) (by norm_num [ornamentLerpSpeed])
    (by norm_num [photoMoveSpeed]) (by norm_num [photoMoveSpeed])

/-- C9: for nonnegative radius and draws in [0,1], the point produced by the
sphere sampler has Euclidean distance from the origin exactly
`cbrt(w) * radius` (the cube-root radial law), hence at most `radius`: every
sample lies inside the sphere. -/
theorem sphere_sample_within_radius (radius u v w : ℝ)
    (hrad : 0 ≤ radius) (hu0 : 0 ≤ u) (hu1 : u ≤ 1)
    (hv0 : 0 ≤ v) (hv1 : v ≤ 1) (hw0 : 0 ≤ w) (hw1 : w ≤ 1) :
    Real.sqrt ((getRandomSpherePoint radius u v w).1 ^ 2 +
        (getRandomSpherePoint radius u v w).2.1 ^ 2 +
        (getRandomSpherePoint radius u v w).2.2 ^ 2)
      = w ^ ((1:ℝ)/3) * radius ∧
    Real.sqrt ((getRandomSpherePoint radius u v w).1 ^ 2 +
        (getRandomSpherePoint radius u v w).2.1 ^ 2 +
        (getRandomSpherePoint radius u v w).2.2 ^ 2) ≤ radius := by
  have hcb0 : 0 ≤ w ^ ((1:ℝ)/3) := Real.rpow_nonneg hw0 _
  have hcb1 : w ^ ((1:ℝ)/3) ≤ 1 := Real.rpow_le_one hw0 hw1 (by norm_num)
  have hr0 : 0 ≤ sphereR radius w := mul_nonneg hcb0 hrad
  have h1 := Real.sin_sq_add_cos_sq (sphereTheta u)
  have h2 := Real.sin_sq_add_cos_sq (spherePhi v)
  have hsum : (getRandomSpherePoint radius u v w).1 ^ 2 +
      (getRandomSpherePoint radius u v w).2.1 ^ 2 +
      (getRandomSpherePoint radius u v w).2.2 ^ 2 = sphereR radius w ^ 2 := by
    simp only [getRandomSpherePoint]
    linear_combination (sphereR radius w ^ 2 * Real.sin (spherePhi v) ^ 2) * h1 +
      sphereR radius w ^ 2 * h2
  rw [hsum, Real.sqrt_sq hr0]
  constructor
  · rfl
  · calc sphereR radius w = w ^ ((1:ℝ)/3) * radius := rfl
    _ ≤ 1 * radius := mul_le_mul_of_nonneg_right hcb1 hrad
    _ = radius := one_mul radius

/-- Witness for C9 at `radius = 1`, all three draws 0. -/
theorem sphere_sample_within_radius_witness :
    Real.sqrt ((getRandomSpherePoint 1 0 0 0).1 ^ 2 +
        (getRandomSpherePoint 1 0 0 0).2.1 ^ 2 +
        (getRandomSpherePoint 1 0 0 0).2.2 ^ 2)
      = (0:ℝ) ^ ((1:ℝ)/3) * 1 ∧
    Real.sqrt ((getRandomSpherePoint 1 0 0 0).1 ^ 2 +
        (getRandomSpherePoint 1 0 0 0).2.1 ^ 2 +
        (getRandomSpherePoint 1 0 0 0).2.2 ^ 2) ≤ 1 :=
  sphere_sample_within_radius 1 0 0 0 zero_le_one (le_refl 0) zero_le_one
    (le_refl 0) zero_le_one (le_refl 0) zero_le_one

end ChristmasTree
